import Mathlib

/-!
Shallow embedding of the SentimentIQ Pro core: the tier policy
(src/src/utils/tierUtils.ts), the comprehensive-analysis server endpoint and
the five single-feature endpoints (src/server/index.js), and the client-side
request entry points (src/src/components/TextAnalyzer.tsx,
src/src/components/FeatureSelector.tsx).

Modelling conventions:
- JavaScript strings are Lean `String`; `text.length` is `String.length`
  (the JS UTF-16 unit count and the Lean codepoint count agree on the BMP
  texts the claims quantify over).
- `text.trim()` is modelled structurally as `jsTrim` (drop leading and
  trailing whitespace characters), and `text.trim().split(/\s+/).length`
  as `jsWordCount` (maximal non-whitespace runs; the empty string splits
  to a singleton in JS, hence the special case).
- The external Azure Language API is a collaborator
  `az : String -> String -> Except String AzureDoc` mapping (analysis kind,
  document text) to either the returned document or an error message; the
  internal shape of a returned document is opaque (`raw`) except for the
  `sentences` list that extractive summarization inspects.
- Fallible handlers return `Except ErrRes payload`; each handler also
  returns the list of Azure analysis kinds it invoked, so that
  "zero provider calls" claims are statable.
-/

/-- Whitespace trim of both ends, modelling the JS String.prototype.trim
used throughout the source. -/
def jsTrim (s : String) : String :=
  String.mk (((s.data.dropWhile Char.isWhitespace).reverse.dropWhile
    Char.isWhitespace).reverse)

/-- Count of maximal non-whitespace runs in a character list.
The Boolean argument records whether the previous character belonged to a
run already counted. -/
def countTokens : List Char → Bool → Nat
  | [], _ => 0
  | c :: cs, inTok =>
    if Char.isWhitespace c then countTokens cs false
    else (if inTok then 0 else 1) + countTokens cs true

/-- The word count the source computes as text.trim().split(/\s+/).length.
In JS, splitting the empty string yields a singleton array, hence the
result 1 for blank text; otherwise the count of non-whitespace runs. -/
def jsWordCount (s : String) : Nat :=
  if jsTrim s = "" then 1 else countTokens (jsTrim s).data false

/-! ## Tier policy (src/src/utils/tierUtils.ts) -/

/-- The entitlement record returned by getTierLimits. -/
structure TierLimits where
  maxFeatures : Nat
  allowedFeatures : List String
  hasHistory : Bool
  requiresAuth : Bool
deriving DecidableEq, Repr

/-- getTierLimits from tierUtils.ts. The source switch has a default branch
returning getTierLimits('guest'); that call evaluates to the guest record,
inlined here in the default case. -/
def getTierLimits (tier : String) : TierLimits :=
  if tier = "guest" then
    { maxFeatures := 1
      allowedFeatures := ["sentiment"]
      hasHistory := false
      requiresAuth := false }
  else if tier = "standard" then
    { maxFeatures := 2
      allowedFeatures := ["sentiment", "keyPhrases"]
      hasHistory := true
      requiresAuth := true }
  else if tier = "pro" then
    { maxFeatures := 5
      allowedFeatures := ["sentiment", "keyPhrases", "entities", "summary", "language"]
      hasHistory := true
      requiresAuth := true }
  else
    { maxFeatures := 1
      allowedFeatures := ["sentiment"]
      hasHistory := false
      requiresAuth := false }

/-- canAccessFeature from tierUtils.ts. -/
def canAccessFeature (tier : String) (feature : String) : Bool :=
  (getTierLimits tier).allowedFeatures.contains feature

/-- Numeric encoding of the privilege order Guest < Standard < Pro over the
three recognized tier identifiers, used to state the monotonicity claim. -/
def tierRank (tier : String) : Nat :=
  if tier = "guest" then 0 else if tier = "standard" then 1 else 2

/-- The three recognized tier identifiers. -/
def recognizedTiers : List String := ["guest", "standard", "pro"]

/-! ## Provider collaborator and per-feature wrappers (src/server/index.js) -/

/-- A document returned by the Azure Language API. Its payload is carried
opaquely as `raw`; only extractive summarization inspects structure, namely
the `sentences` list (each sentence abstracted to its text). -/
structure AzureDoc where
  raw : String
  sentences : List String
deriving DecidableEq, Repr

deriving instance DecidableEq for Except

/-- The Azure collaborator: analysis kind and document text to either the
returned document or the thrown error message (callAzureLanguageAPI throws
on a non-ok HTTP status or on returned per-document errors). -/
def AzureApi : Type := String → String → Except String AzureDoc

/-- analyzeSentiment (server): one SentimentAnalysis call, document passed
through; errors propagate to the caller. -/
def analyzeSentiment (az : AzureApi) (text : String) : Except String AzureDoc :=
  az "SentimentAnalysis" text

/-- extractKeyPhrases (server): one KeyPhraseExtraction call, document
passed through; errors propagate. -/
def extractKeyPhrases (az : AzureApi) (text : String) : Except String AzureDoc :=
  az "KeyPhraseExtraction" text

/-- recognizeEntities (server): one EntityRecognition call; the source
regroups the entity list by category, a reshaping internal to the payload,
which we carry opaquely; errors propagate. -/
def recognizeEntities (az : AzureApi) (text : String) : Except String AzureDoc :=
  az "EntityRecognition" text

/-- detectLanguage (server): one LanguageDetection call, document passed
through; errors propagate. -/
def detectLanguage (az : AzureApi) (text : String) : Except String AzureDoc :=
  az "LanguageDetection" text

/-- The summarization result record built by the server summarizeText. -/
structure SummaryResult where
  summary : String
  sentences : List String
  originalLength : Nat
  summaryLength : Nat
  compressionRatio : String
  sentenceCount : Nat
  errorField : Option String
deriving DecidableEq, Repr

/-- The fallback record the server summarizeText returns from its catch
branch instead of rethrowing a provider error: a success-shaped result
whose error field carries the provider message. -/
def fallbackSummary (text : String) (msg : String) : SummaryResult :=
  { summary := "Text summarization is temporarily unavailable. Please try again later."
    sentences := []
    originalLength := text.length
    summaryLength := 0
    compressionRatio := "0%"
    sentenceCount := 0
    errorField := some msg }

/-- The record the server summarizeText returns when Azure yields no
sentences. -/
def noSentencesSummary (text : String) : SummaryResult :=
  { summary := "Unable to generate summary for this text."
    sentences := []
    originalLength := text.length
    summaryLength := 0
    compressionRatio := "0%"
    sentenceCount := 0
    errorField := none }

/-- The compression-ratio display string. The source formats
(summary.length / text.length * 100).toFixed(1) with floats; we abstract to
the integer percentage, which no claim inspects. -/
def compressionPct (summaryLen textLen : Nat) : String :=
  toString (summaryLen * 100 / textLen) ++ "%"

/-- summarizeText (server, lines 164-234): requests ExtractiveSummarization
(the sentenceCount request parameter derived from the word count only
shapes the provider request and is absorbed into the collaborator), joins
the returned sentences, and on ANY provider error returns the fallback
record instead of throwing. -/
def summarizeText (az : AzureApi) (text : String) : SummaryResult :=
  match az "ExtractiveSummarization" text with
  | Except.error e => fallbackSummary text e
  | Except.ok doc =>
    if doc.sentences = [] then noSentencesSummary text
    else
      let summary := String.intercalate " " doc.sentences
      { summary := summary
        sentences := doc.sentences
        originalLength := text.length
        summaryLength := summary.length
        compressionRatio := compressionPct summary.length text.length
        sentenceCount := doc.sentences.length
        errorField := none }

/-! ## Comprehensive analysis endpoint (POST /api/analyze-text) -/

/-- An error response from a handler: HTTP status plus the error and
message fields of the JSON body. -/
structure ErrRes where
  status : Nat
  error : String
  message : String
deriving DecidableEq, Repr

/-- The per-feature payload stored in the aggregate features map. -/
inductive FeatureData where
  | doc (d : AzureDoc)
  | summaryData (s : SummaryResult)
deriving DecidableEq, Repr

/-- A settled per-feature slot: the success payload, or the error message
captured by the catch wrapper on the feature promise. -/
inductive FeatureOutcome where
  | success (d : FeatureData)
  | failure (message : String)
deriving DecidableEq, Repr

/-- The aggregate result of the comprehensive endpoint. -/
structure AnalyzeResults where
  text : String
  wordCount : Nat
  characterCount : Nat
  features : List (String × FeatureOutcome)
deriving DecidableEq, Repr

/-- The feature list the endpoint defaults to when the request omits
features. -/
def defaultFeatures : List String :=
  ["sentiment", "keyPhrases", "entities", "summary", "language"]

/-- The dispatched features, in the order of the five includes checks of
the handler; summary is dispatched only when text.length > 200. Each
dispatched feature corresponds to exactly one provider call. -/
def dispatchList (text : String) (features : List String) : List String :=
  (if features.contains "sentiment" then ["sentiment"] else []) ++
  (if features.contains "keyPhrases" then ["keyPhrases"] else []) ++
  (if features.contains "entities" then ["entities"] else []) ++
  (if features.contains "summary" && decide (200 < text.length) then ["summary"] else []) ++
  (if features.contains "language" then ["language"] else [])

/-- The then/catch wrapper around a per-feature call: success keeps the
payload, a rejection is captured as the error message. -/
def wrapOutcome : Except String AzureDoc → FeatureOutcome
  | Except.ok d => FeatureOutcome.success (FeatureData.doc d)
  | Except.error e => FeatureOutcome.failure e

/-- The settled outcome for one dispatched feature. summarizeText never
rejects (its own catch returns the fallback record), so its wrapper always
takes the success path. -/
def settle (az : AzureApi) (text : String) (k : String) : FeatureOutcome :=
  if k = "sentiment" then wrapOutcome (analyzeSentiment az text)
  else if k = "keyPhrases" then wrapOutcome (extractKeyPhrases az text)
  else if k = "entities" then wrapOutcome (recognizeEntities az text)
  else if k = "summary" then
    FeatureOutcome.success (FeatureData.summaryData (summarizeText az text))
  else wrapOutcome (detectLanguage az text)

/-- The POST /api/analyze-text handler (src/server/index.js lines 303-411):
validation in source order (text present, length cap 5120, non-blank,
Azure configured), then fan-out per requested feature and aggregation.
Returns the response and the list of dispatched provider calls. -/
def analyzeTextHandler (azureConfigured : Bool) (az : AzureApi)
    (text : String) (reqFeatures : Option (List String)) :
    Except ErrRes AnalyzeResults × List String :=
  if text = "" then
    (Except.error ⟨400, "Invalid input", "Text is required and must be a string"⟩, [])
  else if 5120 < text.length then
    (Except.error ⟨400, "Text too long",
      "Text must be less than 5,120 characters to comply with Azure Language API limits"⟩, [])
  else if (jsTrim text).length = 0 then
    (Except.error ⟨400, "Empty text", "Please provide some text to analyze"⟩, [])
  else if !azureConfigured then
    (Except.error ⟨503, "Azure not configured",
      "Azure Language API is not properly configured for comprehensive analysis"⟩, [])
  else
    (Except.ok
      { text := text
        wordCount := jsWordCount text
        characterCount := text.length
        features := (dispatchList text (reqFeatures.getD defaultFeatures)).map
          fun k => (k, settle az text k) },
      dispatchList text (reqFeatures.getD defaultFeatures))

/-! ## Single-feature endpoints (src/server/index.js) -/

/-- The success payload of a single-feature endpoint. Numeric
post-processing of the sentiment confidence scores (score, magnitude,
intensity) is floating-point presentation the claims do not inspect; the
provider document is carried through. -/
inductive SinglePayload where
  | sentimentR (d : AzureDoc) (wordCount : Nat)
  | keyPhrasesR (d : AzureDoc) (wordCount : Nat)
  | entitiesR (d : AzureDoc)
  | summaryR (s : SummaryResult)
  | languageR (d : AzureDoc)
deriving DecidableEq, Repr

/-- The shared invalid-input rejection of the single-feature endpoints. -/
def invalidInputRes : ErrRes :=
  ⟨400, "Invalid input", "Text is required and must be a non-empty string"⟩

/-- The shared length rejection of the single-feature endpoints. -/
def tooLongRes : ErrRes :=
  ⟨400, "Text too long",
    "Text must be less than 5,120 characters to comply with Azure Language API limits"⟩

/-- The shared service-unavailable rejection of the single-feature
endpoints. -/
def notConfiguredRes : ErrRes :=
  ⟨503, "Azure not configured", "Azure Language API is not properly configured"⟩

/-- The POST /api/analyze-sentiment handler: validation, then one provider
call whose rejection becomes a 500 Analysis-failed response carrying the
provider message. -/
def analyzeSentimentHandler (azureConfigured : Bool) (az : AzureApi)
    (text : String) : Except ErrRes SinglePayload × List String :=
  if text = "" || (jsTrim text).length = 0 then (Except.error invalidInputRes, [])
  else if 5120 < text.length then (Except.error tooLongRes, [])
  else if !azureConfigured then (Except.error notConfiguredRes, [])
  else
    match analyzeSentiment az text with
    | Except.ok d =>
      (Except.ok (SinglePayload.sentimentR d (jsWordCount text)), ["SentimentAnalysis"])
    | Except.error e =>
      (Except.error ⟨500, "Analysis failed", e⟩, ["SentimentAnalysis"])

/-- The POST /api/extract-key-phrases handler. -/
def extractKeyPhrasesHandler (azureConfigured : Bool) (az : AzureApi)
    (text : String) : Except ErrRes SinglePayload × List String :=
  if text = "" || (jsTrim text).length = 0 then (Except.error invalidInputRes, [])
  else if 5120 < text.length then (Except.error tooLongRes, [])
  else if !azureConfigured then (Except.error notConfiguredRes, [])
  else
    match extractKeyPhrases az text with
    | Except.ok d =>
      (Except.ok (SinglePayload.keyPhrasesR d (jsWordCount text)), ["KeyPhraseExtraction"])
    | Except.error e =>
      (Except.error ⟨500, "Analysis failed", e⟩, ["KeyPhraseExtraction"])

/-- The POST /api/recognize-entities handler. -/
def recognizeEntitiesHandler (azureConfigured : Bool) (az : AzureApi)
    (text : String) : Except ErrRes SinglePayload × List String :=
  if text = "" || (jsTrim text).length = 0 then (Except.error invalidInputRes, [])
  else if 5120 < text.length then (Except.error tooLongRes, [])
  else if !azureConfigured then (Except.error notConfiguredRes, [])
  else
    match recognizeEntities az text with
    | Except.ok d => (Except.ok (SinglePayload.entitiesR d), ["EntityRecognition"])
    | Except.error e =>
      (Except.error ⟨500, "Analysis failed", e⟩, ["EntityRecognition"])

/-- The POST /api/summarize-text handler: validation (including the
200-character minimum), then summarizeText, which never rejects — a
provider failure surfaces as the ok fallback record, not as an error
response. -/
def summarizeTextHandler (azureConfigured : Bool) (az : AzureApi)
    (text : String) : Except ErrRes SinglePayload × List String :=
  if text = "" || (jsTrim text).length = 0 then (Except.error invalidInputRes, [])
  else if text.length < 200 then
    (Except.error ⟨400, "Text too short",
      "Text must be at least 200 characters for summarization"⟩, [])
  else if 5120 < text.length then (Except.error tooLongRes, [])
  else if !azureConfigured then (Except.error notConfiguredRes, [])
  else
    (Except.ok (SinglePayload.summaryR (summarizeText az text)),
      ["ExtractiveSummarization"])

/-- The POST /api/detect-language handler. -/
def detectLanguageHandler (azureConfigured : Bool) (az : AzureApi)
    (text : String) : Except ErrRes SinglePayload × List String :=
  if text = "" || (jsTrim text).length = 0 then (Except.error invalidInputRes, [])
  else if 5120 < text.length then (Except.error tooLongRes, [])
  else if !azureConfigured then (Except.error notConfiguredRes, [])
  else
    match detectLanguage az text with
    | Except.ok d => (Except.ok (SinglePayload.languageR d), ["LanguageDetection"])
    | Except.error e =>
      (Except.error ⟨500, "Analysis failed", e⟩, ["LanguageDetection"])

/-! ## Client-side request entry points -/

/-- The outcome of the client handleAnalyze (TextAnalyzer.tsx): either a
validation error shown to the user (error type field is the constant
validation), or submission to analyzeTextComprehensive, which posts the
trimmed text and the selected features to /api/analyze-text. -/
inductive ClientOutcome where
  | validationError (message : String)
  | submitted (text : String) (features : List String)
deriving DecidableEq, Repr

/-- handleAnalyze from TextAnalyzer.tsx: blank check, 10000-character
client-side ceiling, at-least-one-feature check, then submission. -/
def handleAnalyze (text : String) (selectedFeatures : List String) : ClientOutcome :=
  if jsTrim text = "" then
    ClientOutcome.validationError "Please enter some text to analyze"
  else if 10000 < text.length then
    ClientOutcome.validationError "Text is too long. Please limit to 10,000 characters."
  else if selectedFeatures.length = 0 then
    ClientOutcome.validationError "Please select at least one analysis feature."
  else ClientOutcome.submitted text selectedFeatures

/-- The effect of the FeatureSelector toggle: show the upgrade prompt,
leave the selection unchanged, or replace the selection. -/
inductive ToggleResult where
  | showUpgrade
  | unchanged
  | update (features : List String)
deriving DecidableEq, Repr

/-- toggleFeature from FeatureSelector.tsx: an inaccessible feature opens
the upgrade prompt; removing is barred for a guest down to zero features;
adding is barred at the tier feature cap. -/
def toggleFeature (tier : String) (selected : List String)
    (featureId : String) : ToggleResult :=
  if !canAccessFeature tier featureId then ToggleResult.showUpgrade
  else if selected.contains featureId then
    if tier = "guest" && selected.length = 1 then ToggleResult.unchanged
    else ToggleResult.update (selected.filter (fun f => f ≠ featureId))
  else if (getTierLimits tier).maxFeatures ≤ selected.length then
    ToggleResult.showUpgrade
  else ToggleResult.update (selected ++ [featureId])

/-! ## Fixtures for concrete evaluations -/

/-- The Azure analysis kind requested for each feature identifier of the
comprehensive endpoint. -/
def azureKind (k : String) : String :=
  if k = "sentiment" then "SentimentAnalysis"
  else if k = "keyPhrases" then "KeyPhraseExtraction"
  else if k = "entities" then "EntityRecognition"
  else if k = "language" then "LanguageDetection"
  else "ExtractiveSummarization"

/-- A provider stub that succeeds on every call. -/
def azAllOk : AzureApi := fun _ _ => Except.ok { raw := "doc", sentences := [] }

/-- A provider stub that fails every call with the message boom. -/
def azFailAll : AzureApi := fun _ _ => Except.error "boom"

/-- A provider stub configured to fail exactly the summarization call. -/
def azFailSummarization : AzureApi := fun kind _ =>
  if kind = "ExtractiveSummarization" then Except.error "prov-fail"
  else Except.ok { raw := "doc", sentences := [] }

/-- A provider stub configured to fail exactly the key-phrase call. -/
def azFailKeyPhrases : AzureApi := fun kind _ =>
  if kind = "KeyPhraseExtraction" then Except.error "bad"
  else Except.ok { raw := "doc", sentences := [] }

/-- A 200-character non-blank text. -/
def cText200 : String := String.mk (List.replicate 200 'a')

/-- A 250-character non-blank text. -/
def cText250 : String := String.mk (List.replicate 250 'a')

/-- A 300-character non-blank text. -/
def cText300 : String := String.mk (List.replicate 300 'a')

/-- A 6000-character non-blank text. -/
def cText6000 : String := String.mk (List.replicate 6000 'a')

/-! ## Claims about the tier policy -/

/-- C2: getTierLimits reproduces the fixed entitlement table exactly, with
allowedFeatures in exactly the listed orders. -/
theorem getTierLimits_table :
    getTierLimits "guest" =
      { maxFeatures := 1, allowedFeatures := ["sentiment"],
        hasHistory := false, requiresAuth := false } ∧
    getTierLimits "standard" =
      { maxFeatures := 2, allowedFeatures := ["sentiment", "keyPhrases"],
        hasHistory := true, requiresAuth := true } ∧
    getTierLimits "pro" =
      { maxFeatures := 5,
        allowedFeatures := ["sentiment", "keyPhrases", "entities", "summary", "language"],
        hasHistory := true, requiresAuth := true } := by
  decide

/-- C8: the tier policy is monotone along the privilege order
Guest < Standard < Pro (allowed-feature sets grow, maxFeatures grows), and
for every tier the size of allowedFeatures equals maxFeatures. -/
theorem tier_policy_monotone (t1 t2 : String)
    (h1 : t1 ∈ recognizedTiers) (h2 : t2 ∈ recognizedTiers)
    (hle : tierRank t1 ≤ tierRank t2) :
    (∀ f ∈ (getTierLimits t1).allowedFeatures,
        f ∈ (getTierLimits t2).allowedFeatures) ∧
    (getTierLimits t1).maxFeatures ≤ (getTierLimits t2).maxFeatures ∧
    (getTierLimits t1).allowedFeatures.length = (getTierLimits t1).maxFeatures := by
  simp only [recognizedTiers, List.mem_cons, List.not_mem_nil, or_false] at h1 h2
  rcases h1 with rfl | rfl | rfl <;> rcases h2 with rfl | rfl | rfl <;>
    first
      | exact absurd hle (by decide)
      | exact ⟨by decide, by decide, by decide⟩

theorem tier_policy_monotone_witness :
    "guest" ∈ recognizedTiers ∧ "pro" ∈ recognizedTiers ∧
    tierRank "guest" ≤ tierRank "pro" ∧
    ((∀ f ∈ (getTierLimits "guest").allowedFeatures,
        f ∈ (getTierLimits "pro").allowedFeatures) ∧
      (getTierLimits "guest").maxFeatures ≤ (getTierLimits "pro").maxFeatures ∧
      (getTierLimits "guest").allowedFeatures.length =
        (getTierLimits "guest").maxFeatures) :=
  ⟨by decide, by decide, by decide,
    tier_policy_monotone "guest" "pro" (by decide) (by decide) (by decide)⟩

/-- C9: every unrecognized tier value falls back to the Guest record
exactly (fail-safe least privilege). -/
theorem getTierLimits_unknown_fallback (tier : String)
    (h : tier ∉ recognizedTiers) :
    getTierLimits tier = getTierLimits "guest" := by
  simp only [recognizedTiers, List.mem_cons, List.not_mem_nil, or_false, not_or] at h
  obtain ⟨h1, h2, h3⟩ := h
  simp [getTierLimits, h1, h2, h3]

theorem getTierLimits_unknown_fallback_witness :
    "platinum" ∉ recognizedTiers ∧
    getTierLimits "platinum" = getTierLimits "guest" :=
  ⟨by decide, getTierLimits_unknown_fallback "platinum" (by decide)⟩

/-! ## Helper lemmas -/

set_option maxRecDepth 8000

theorem mem_cond_singleton {c : Prop} [Decidable c] {a x : String} :
    (a ∈ if c then [x] else []) ↔ (c ∧ a = x) := by
  split <;> simp_all

theorem mem_dispatchList {text : String} {fs : List String} {k : String} :
    k ∈ dispatchList text fs ↔
      (k = "sentiment" ∧ fs.contains "sentiment" = true) ∨
      (k = "keyPhrases" ∧ fs.contains "keyPhrases" = true) ∨
      (k = "entities" ∧ fs.contains "entities" = true) ∨
      (k = "summary" ∧ fs.contains "summary" = true ∧ 200 < text.length) ∨
      (k = "language" ∧ fs.contains "language" = true) := by
  unfold dispatchList
  simp only [List.mem_append, mem_cond_singleton, Bool.and_eq_true, decide_eq_true_eq]
  tauto

theorem analyzeTextHandler_ok_inv {cfg : Bool} {az : AzureApi} {text : String}
    {fso : Option (List String)} {r : AnalyzeResults} {log : List String}
    (h : analyzeTextHandler cfg az text fso = (Except.ok r, log)) :
    log = dispatchList text (fso.getD defaultFeatures) ∧
    r = { text := text
          wordCount := jsWordCount text
          characterCount := text.length
          features := (dispatchList text (fso.getD defaultFeatures)).map
            fun k => (k, settle az text k) } := by
  unfold analyzeTextHandler at h
  split_ifs at h
  · exact absurd h (by simp)
  · exact absurd h (by simp)
  · exact absurd h (by simp)
  · exact absurd h (by simp)
  · rw [Prod.mk.injEq] at h
    obtain ⟨h1, h2⟩ := h
    rw [Except.ok.injEq] at h1
    exact ⟨h2.symm, h1.symm⟩

theorem contains_append_ne (fs : List String) {junk x : String} (h : junk ≠ x) :
    (fs ++ [junk]).contains x = fs.contains x := by
  simp [Ne.symm h]

theorem dispatchList_append_unknown {text : String} {fs : List String}
    {junk : String} (h : junk ∉ defaultFeatures) :
    dispatchList text (fs ++ [junk]) = dispatchList text fs := by
  simp only [defaultFeatures, List.mem_cons, List.not_mem_nil, or_false, not_or] at h
  obtain ⟨h1, h2, h3, h4, h5⟩ := h
  unfold dispatchList
  rw [contains_append_ne fs h1, contains_append_ne fs h2, contains_append_ne fs h3,
    contains_append_ne fs h4, contains_append_ne fs h5]

theorem jsTrim_length_zero {s : String} (h : (jsTrim s).length = 0) : jsTrim s = "" :=
  String.ext (List.length_eq_zero.mp h)

theorem jsTrim_ne_of_text {text : String} (h : jsTrim text ≠ "") : text ≠ "" := by
  intro h0
  apply h
  rw [h0]
  rfl

/-! ## Claims about validation and tier gating of requests -/

/-- C3 counterexample: a comprehensive request with tier Guest and features
[sentiment, keyPhrases] is NOT rejected anywhere on the request path, even
though canAccessFeature refuses keyPhrases to a guest: the client submits
it and the server dispatches both features, making two provider calls. -/
theorem guest_disallowed_feature_not_rejected :
    canAccessFeature "guest" "keyPhrases" = false ∧
    handleAnalyze "Great product" ["sentiment", "keyPhrases"] =
      ClientOutcome.submitted "Great product" ["sentiment", "keyPhrases"] ∧
    analyzeTextHandler true azAllOk "Great product" (some ["sentiment", "keyPhrases"]) =
      (Except.ok
        { text := "Great product"
          wordCount := 2
          characterCount := 13
          features :=
            [("sentiment", FeatureOutcome.success (FeatureData.doc ⟨"doc", []⟩)),
             ("keyPhrases", FeatureOutcome.success (FeatureData.doc ⟨"doc", []⟩))] },
        ["sentiment", "keyPhrases"]) := by
  decide

/-- C3 amended: tier permission is enforced only in the client
feature-selection UI: toggleFeature refuses an inaccessible feature with
the upgrade prompt, so a toggle never introduces a feature the tier cannot
access; the request path itself performs no canAccessFeature check. -/
theorem toggleFeature_gates_inaccessible (tier : String) (selected : List String)
    (featureId : String) :
    (canAccessFeature tier featureId = false →
      toggleFeature tier selected featureId = ToggleResult.showUpgrade) ∧
    (∀ nf, toggleFeature tier selected featureId = ToggleResult.update nf →
      ∀ g ∈ nf, g ∈ selected ∨ canAccessFeature tier g = true) := by
  constructor
  · intro h
    unfold toggleFeature
    simp [h]
  · intro nf h g hg
    unfold toggleFeature at h
    split_ifs at h with hAccess hMem hGuest hCap
    all_goals first
      | exact ToggleResult.noConfusion h
      | (rw [ToggleResult.update.injEq] at h
         subst h
         first
           | exact Or.inl (List.mem_filter.mp hg).1
           | (rcases List.mem_append.mp hg with hsel | hnew
              · exact Or.inl hsel
              · refine Or.inr ?_
                rw [List.mem_singleton] at hnew
                subst hnew
                rw [Bool.not_eq_true] at hAccess
                simpa using hAccess))

theorem toggleFeature_gates_inaccessible_witness :
    canAccessFeature "guest" "entities" = false ∧
    toggleFeature "guest" ["sentiment"] "entities" = ToggleResult.showUpgrade :=
  ⟨by decide,
    (toggleFeature_gates_inaccessible "guest" ["sentiment"] "entities").1 (by decide)⟩

/-- C4 counterexample: a 6000-character text is within the 10,000-character
ceiling the claim states for the comprehensive endpoint, yet the server
rejects it with the Text-too-long error and makes zero provider calls: the
comprehensive endpoint enforces 5,120, not 10,000. -/
theorem comprehensive_rejects_within_claimed_ceiling :
    cText6000.length = 6000 ∧
    cText6000.length ≤ 10000 ∧
    analyzeTextHandler true azAllOk cText6000 (some ["sentiment"]) =
      (Except.error tooLongRes, []) := by
  have hlen : cText6000.length = 6000 := by
    unfold cText6000
    rw [String.length_mk, List.length_replicate]
  have hne : cText6000 ≠ "" := by
    intro h0
    rw [h0] at hlen
    simp at hlen
  refine ⟨hlen, by omega, ?_⟩
  unfold analyzeTextHandler
  rw [if_neg hne, if_pos (by omega : 5120 < cText6000.length)]
  rfl

/-- C4 amended: the comprehensive server endpoint and the single-feature
sentiment endpoint both reject with the Text-too-long error exactly when
text.length exceeds 5,120, with zero provider calls; the 10,000-character
ceiling is enforced only client-side by handleAnalyze before any request
is sent. -/
theorem length_ceiling_endpoints (cfg : Bool) (az : AzureApi) (text : String)
    (fso : Option (List String)) (fs2 : List String)
    (htrim : jsTrim text ≠ "") :
    ((analyzeTextHandler cfg az text fso).1 = Except.error tooLongRes ↔
      5120 < text.length) ∧
    (5120 < text.length → (analyzeTextHandler cfg az text fso).2 = []) ∧
    ((analyzeSentimentHandler cfg az text).1 = Except.error tooLongRes ↔
      5120 < text.length) ∧
    (5120 < text.length → (analyzeSentimentHandler cfg az text).2 = []) ∧
    (10000 < text.length →
      handleAnalyze text fs2 =
        ClientOutcome.validationError
          "Text is too long. Please limit to 10,000 characters.") := by
  have hne : text ≠ "" := jsTrim_ne_of_text htrim
  have hlz : ¬((jsTrim text).length = 0) := fun h0 => htrim (jsTrim_length_zero h0)
  refine ⟨⟨?_, ?_⟩, ?_, ⟨?_, ?_⟩, ?_, ?_⟩
  · intro h
    unfold analyzeTextHandler at h
    split_ifs at h with h1 h2 h3 h4 <;> simp_all [tooLongRes]
  · intro hlt
    unfold analyzeTextHandler
    rw [if_neg hne, if_pos hlt]
    rfl
  · intro hlt
    unfold analyzeTextHandler
    rw [if_neg hne, if_pos hlt]
  · intro h
    unfold analyzeSentimentHandler at h
    split_ifs at h with h1 h2 h3
    · simp_all [invalidInputRes, tooLongRes]
    · exact h2
    · simp_all [notConfiguredRes, tooLongRes]
    · rcases h4 : analyzeSentiment az text with d | e <;>
        rw [h4] at h <;> simp [tooLongRes] at h
  · intro hlt
    unfold analyzeSentimentHandler
    rw [if_neg (by simp [hne, hlz]), if_pos hlt]
  · intro hlt
    unfold analyzeSentimentHandler
    rw [if_neg (by simp [hne, hlz]), if_pos hlt]
  · intro hlt
    unfold handleAnalyze
    rw [if_neg htrim, if_pos hlt]

theorem length_ceiling_endpoints_witness :
    jsTrim "hi" ≠ "" ∧
    ¬((analyzeTextHandler true azAllOk "hi" (some ["sentiment"])).1 =
        Except.error tooLongRes) :=
  ⟨by decide,
    fun h =>
      absurd
        (((length_ceiling_endpoints true azAllOk "hi" (some ["sentiment"]) []
          (by decide)).1).mp h)
        (by decide)⟩

/-- C5: a comprehensive analysis with an empty feature list never reaches
the provider: the client handleAnalyze never submits it (and reports the
select-at-least-one-feature validation error whenever the earlier text
checks pass), and even a direct server call with an empty feature list
dispatches zero provider calls. -/
theorem empty_features_rejected_before_dispatch (text : String) :
    (∀ t fs2, handleAnalyze text [] ≠ ClientOutcome.submitted t fs2) ∧
    (jsTrim text ≠ "" → text.length ≤ 10000 →
      handleAnalyze text [] =
        ClientOutcome.validationError "Please select at least one analysis feature.") ∧
    (∀ cfg az, (analyzeTextHandler cfg az text (some [])).2 = []) := by
  refine ⟨?_, ?_, ?_⟩
  · intro t fs2 h
    unfold handleAnalyze at h
    split_ifs at h <;> simp_all
  · intro h1 h2
    unfold handleAnalyze
    rw [if_neg h1, if_neg (by omega : ¬(10000 < text.length))]
    simp
  · intro cfg az
    unfold analyzeTextHandler
    split_ifs <;> rfl

theorem empty_features_rejected_before_dispatch_witness :
    handleAnalyze "hello" [] =
      ClientOutcome.validationError "Please select at least one analysis feature." ∧
    (analyzeTextHandler true azAllOk "hello" (some [])).2 = [] :=
  ⟨(empty_features_rejected_before_dispatch "hello").2.1 (by decide) (by decide),
    (empty_features_rejected_before_dispatch "hello").2.2 true azAllOk⟩

/-! ## Claims about summarization boundaries and provider-error surfacing -/

/-- C6 counterexample: a text of exactly 200 characters satisfies the
claimed dispatch condition text.length >= 200, yet the comprehensive
endpoint does not dispatch a requested Summary sub-call for it: the code
requires text.length > 200 strictly. -/
theorem summary_not_dispatched_at_exactly_200 :
    cText200.length = 200 ∧
    analyzeTextHandler true azAllOk cText200 (some ["summary"]) =
      (Except.ok
        { text := cText200
          wordCount := 1
          characterCount := 200
          features := [] },
        []) := by
  decide

/-- C6 amended: the single-feature summarize endpoint rejects non-blank
text shorter than 200 characters with the Text-too-short error before any
provider call, and the comprehensive endpoint dispatches a requested
Summary sub-call exactly when text.length > 200 (strictly), silently
omitting Summary from dispatch at length <= 200 while still dispatching
every other requested known feature. -/
theorem summary_dispatch_strict (cfg : Bool) (az : AzureApi) (text : String)
    (fs : List String) (r : AnalyzeResults) (log : List String)
    (htrim : jsTrim text ≠ "") :
    (text.length < 200 →
      summarizeTextHandler cfg az text =
        (Except.error ⟨400, "Text too short",
          "Text must be at least 200 characters for summarization"⟩, [])) ∧
    (analyzeTextHandler cfg az text (some fs) = (Except.ok r, log) →
      ("summary" ∈ log ↔ "summary" ∈ fs ∧ 200 < text.length) ∧
      (∀ f ∈ fs, f ∈ defaultFeatures → f ≠ "summary" → f ∈ log)) := by
  have hne : text ≠ "" := jsTrim_ne_of_text htrim
  have hlz : ¬((jsTrim text).length = 0) := fun h0 => htrim (jsTrim_length_zero h0)
  constructor
  · intro hshort
    unfold summarizeTextHandler
    rw [if_neg (by simp [hne, hlz]), if_pos hshort]
  · intro h
    obtain ⟨hlog, hr⟩ := analyzeTextHandler_ok_inv h
    simp only [Option.getD_some] at hlog
    subst hlog
    constructor
    · rw [mem_dispatchList]
      simp
    · intro f hf hknown hne2
      rw [mem_dispatchList]
      have hcont : fs.contains f = true := by simpa using hf
      simp only [defaultFeatures, List.mem_cons, List.not_mem_nil, or_false] at hknown
      rcases hknown with rfl | rfl | rfl | rfl | rfl
      · exact Or.inl ⟨rfl, hcont⟩
      · exact Or.inr (Or.inl ⟨rfl, hcont⟩)
      · exact Or.inr (Or.inr (Or.inl ⟨rfl, hcont⟩))
      · exact absurd rfl hne2
      · exact Or.inr (Or.inr (Or.inr (Or.inr ⟨rfl, hcont⟩)))

theorem summary_dispatch_strict_witness :
    summarizeTextHandler true azAllOk "short text" =
      (Except.error ⟨400, "Text too short",
        "Text must be at least 200 characters for summarization"⟩, []) :=
  (summary_dispatch_strict true azAllOk "short text" []
    { text := "", wordCount := 0, characterCount := 0, features := [] } []
    (by decide)).1 (by decide)

/-- C7 counterexample: with a provider that fails the summarization call,
the single-feature summarize endpoint still answers with an ok
success-shaped fallback payload (carrying the provider message only in its
error field) instead of surfacing an error response. -/
theorem summarize_endpoint_masks_provider_failure :
    azFailAll "ExtractiveSummarization" cText250 = Except.error "boom" ∧
    summarizeTextHandler true azFailAll cText250 =
      (Except.ok (SinglePayload.summaryR (fallbackSummary cText250 "boom")),
        ["ExtractiveSummarization"]) := by
  decide

/-- C7 amended: the sentiment, key-phrase, entity and language endpoints
surface every provider failure as a 500 Analysis-failed response carrying
the provider message, distinguished from 400 validation responses; the
summarize endpoint instead converts a provider failure into an ok
success-shaped fallback summary carrying the message in its error field. -/
theorem single_feature_provider_error_surfacing (az : AzureApi) (text : String)
    (e : String) (htrim : jsTrim text ≠ "") (hlen : text.length ≤ 5120) :
    (analyzeSentiment az text = Except.error e →
      (analyzeSentimentHandler true az text).1 =
        Except.error ⟨500, "Analysis failed", e⟩) ∧
    (extractKeyPhrases az text = Except.error e →
      (extractKeyPhrasesHandler true az text).1 =
        Except.error ⟨500, "Analysis failed", e⟩) ∧
    (recognizeEntities az text = Except.error e →
      (recognizeEntitiesHandler true az text).1 =
        Except.error ⟨500, "Analysis failed", e⟩) ∧
    (detectLanguage az text = Except.error e →
      (detectLanguageHandler true az text).1 =
        Except.error ⟨500, "Analysis failed", e⟩) ∧
    (az "ExtractiveSummarization" text = Except.error e → 200 ≤ text.length →
      (summarizeTextHandler true az text).1 =
        Except.ok (SinglePayload.summaryR (fallbackSummary text e))) := by
  have hne : text ≠ "" := jsTrim_ne_of_text htrim
  have hlz : ¬((jsTrim text).length = 0) := fun h0 => htrim (jsTrim_length_zero h0)
  have hnl : ¬(5120 < text.length) := by omega
  refine ⟨?_, ?_, ?_, ?_, ?_⟩
  · intro he
    unfold analyzeSentimentHandler
    rw [if_neg (by simp [hne, hlz]), if_neg hnl, if_neg (by simp), he]
  · intro he
    unfold extractKeyPhrasesHandler
    rw [if_neg (by simp [hne, hlz]), if_neg hnl, if_neg (by simp), he]
  · intro he
    unfold recognizeEntitiesHandler
    rw [if_neg (by simp [hne, hlz]), if_neg hnl, if_neg (by simp), he]
  · intro he
    unfold detectLanguageHandler
    rw [if_neg (by simp [hne, hlz]), if_neg hnl, if_neg (by simp), he]
  · intro he h200
    unfold summarizeTextHandler
    rw [if_neg (by simp [hne, hlz]), if_neg (by omega : ¬(text.length < 200)),
      if_neg hnl, if_neg (by simp)]
    unfold summarizeText
    rw [he]

theorem single_feature_provider_error_surfacing_witness :
    (analyzeSentimentHandler true azFailAll "hello").1 =
      Except.error ⟨500, "Analysis failed", "boom"⟩ :=
  (single_feature_provider_error_surfacing azFailAll "hello" "boom"
    (by decide) (by decide)).1 (by decide)

/-- C1 counterexample: with the provider configured to fail exactly the
summarization call, the comprehensive endpoint still returns an aggregate
result, but the failed summary feature slot holds a SUCCESS payload (the
fallback summary carrying the message in its error field), not a
Failure/error entry as the claim states. -/
theorem comprehensive_summary_failure_slot_success :
    azFailSummarization "ExtractiveSummarization" cText300 = Except.error "prov-fail" ∧
    analyzeTextHandler true azFailSummarization cText300
        (some ["sentiment", "keyPhrases", "summary"]) =
      (Except.ok
        { text := cText300
          wordCount := 1
          characterCount := 300
          features :=
            [("sentiment", FeatureOutcome.success (FeatureData.doc ⟨"doc", []⟩)),
             ("keyPhrases", FeatureOutcome.success (FeatureData.doc ⟨"doc", []⟩)),
             ("summary", FeatureOutcome.success
                (FeatureData.summaryData (fallbackSummary cText300 "prov-fail")))] },
        ["sentiment", "keyPhrases", "summary"]) := by
  decide

/-- C1 amended: for every dispatched request and every combination of
provider outcomes, the aggregate result has one slot per dispatched
feature, each determined only by its own provider call: for sentiment,
keyPhrases, entities and language a provider failure yields a
Failure/error slot carrying the provider message while every successful
sibling keeps its payload; for summary a provider failure instead yields a
success-shaped fallback payload carrying the message in its error field;
wordCount and characterCount are always computed for the text. -/
theorem analyzeText_partial_failure_containment
    (cfg : Bool) (az : AzureApi) (text : String) (fs : List String)
    (r : AnalyzeResults) (log : List String)
    (h : analyzeTextHandler cfg az text (some fs) = (Except.ok r, log)) :
    r.features.map Prod.fst = log ∧
    r.wordCount = jsWordCount text ∧
    r.characterCount = text.length ∧
    (∀ k ∈ log, k ≠ "summary" →
      (∀ e, az (azureKind k) text = Except.error e →
        (k, FeatureOutcome.failure e) ∈ r.features) ∧
      (∀ d, az (azureKind k) text = Except.ok d →
        (k, FeatureOutcome.success (FeatureData.doc d)) ∈ r.features)) ∧
    (∀ k ∈ log, k = "summary" →
      ∀ e, az "ExtractiveSummarization" text = Except.error e →
        (k, FeatureOutcome.success
          (FeatureData.summaryData (fallbackSummary text e))) ∈ r.features) := by
  obtain ⟨hlog, hr⟩ := analyzeTextHandler_ok_inv h
  simp only [Option.getD_some] at hlog hr
  subst hr
  subst hlog
  refine ⟨?_, rfl, rfl, ?_, ?_⟩
  · rw [List.map_map]
    exact List.map_id _
  · intro k hk hks
    have hmem :
        (k, settle az text k) ∈
          (dispatchList text fs).map (fun k => (k, settle az text k)) :=
      List.mem_map_of_mem _ hk
    rcases mem_dispatchList.mp hk with
      ⟨rfl, _⟩ | ⟨rfl, _⟩ | ⟨rfl, _⟩ | ⟨rfl, _, _⟩ | ⟨rfl, _⟩
    · constructor
      · intro e he
        have hs : settle az text "sentiment" = FeatureOutcome.failure e := by
          simp [settle, wrapOutcome, analyzeSentiment]
          rw [show azureKind "sentiment" = "SentimentAnalysis" from rfl] at he
          rw [he]
        rw [← hs]
        exact hmem
      · intro d hd
        have hs : settle az text "sentiment" =
            FeatureOutcome.success (FeatureData.doc d) := by
          simp [settle, wrapOutcome, analyzeSentiment]
          rw [show azureKind "sentiment" = "SentimentAnalysis" from rfl] at hd
          rw [hd]
        rw [← hs]
        exact hmem
    · constructor
      · intro e he
        have hs : settle az text "keyPhrases" = FeatureOutcome.failure e := by
          simp [settle, wrapOutcome, extractKeyPhrases]
          rw [show azureKind "keyPhrases" = "KeyPhraseExtraction" from rfl] at he
          rw [he]
        rw [← hs]
        exact hmem
      · intro d hd
        have hs : settle az text "keyPhrases" =
            FeatureOutcome.success (FeatureData.doc d) := by
          simp [settle, wrapOutcome, extractKeyPhrases]
          rw [show azureKind "keyPhrases" = "KeyPhraseExtraction" from rfl] at hd
          rw [hd]
        rw [← hs]
        exact hmem
    · constructor
      · intro e he
        have hs : settle az text "entities" = FeatureOutcome.failure e := by
          simp [settle, wrapOutcome, recognizeEntities]
          rw [show azureKind "entities" = "EntityRecognition" from rfl] at he
          rw [he]
        rw [← hs]
        exact hmem
      · intro d hd
        have hs : settle az text "entities" =
            FeatureOutcome.success (FeatureData.doc d) := by
          simp [settle, wrapOutcome, recognizeEntities]
          rw [show azureKind "entities" = "EntityRecognition" from rfl] at hd
          rw [hd]
        rw [← hs]
        exact hmem
    · exact absurd rfl hks
    · constructor
      · intro e he
        have hs : settle az text "language" = FeatureOutcome.failure e := by
          simp [settle, wrapOutcome, detectLanguage]
          rw [show azureKind "language" = "LanguageDetection" from rfl] at he
          rw [he]
        rw [← hs]
        exact hmem
      · intro d hd
        have hs : settle az text "language" =
            FeatureOutcome.success (FeatureData.doc d) := by
          simp [settle, wrapOutcome, detectLanguage]
          rw [show azureKind "language" = "LanguageDetection" from rfl] at hd
          rw [hd]
        rw [← hs]
        exact hmem
  · intro k hk hks e he
    subst hks
    have hmem :
        ("summary", settle az text "summary") ∈
          (dispatchList text fs).map (fun k => (k, settle az text k)) :=
      List.mem_map_of_mem _ hk
    have hs : settle az text "summary" =
        FeatureOutcome.success
          (FeatureData.summaryData (fallbackSummary text e)) := by
      simp [settle]
      unfold summarizeText
      rw [he]
    rw [← hs]
    exact hmem

theorem analyzeText_partial_failure_containment_witness :
    ("keyPhrases", FeatureOutcome.failure "bad") ∈
      ({ text := "nice day"
         wordCount := 2
         characterCount := 8
         features :=
           [("sentiment", FeatureOutcome.success (FeatureData.doc ⟨"doc", []⟩)),
            ("keyPhrases", FeatureOutcome.failure "bad")] } : AnalyzeResults).features :=
  ((analyzeText_partial_failure_containment true azFailKeyPhrases "nice day"
      ["sentiment", "keyPhrases"]
      { text := "nice day"
        wordCount := 2
        characterCount := 8
        features :=
          [("sentiment", FeatureOutcome.success (FeatureData.doc ⟨"doc", []⟩)),
           ("keyPhrases", FeatureOutcome.failure "bad")] }
      ["sentiment", "keyPhrases"] (by decide)).2.2.2.1 "keyPhrases" (by decide)
      (by decide)).1 "bad" (by decide)

/-! ## Claim about the feature-key invariant of the aggregate result -/

/-- C10: every key in the returned features map is a requested feature
identifier among the five known kinds (so no entry for an unrequested
feature), and a requested identifier outside the five known kinds is
silently ignored: appending it to the request changes neither the response
nor the provider calls, and produces no error. -/
theorem analyzeText_feature_keys
    (cfg : Bool) (az : AzureApi) (text : String) (fs : List String)
    (r : AnalyzeResults) (log : List String)
    (h : analyzeTextHandler cfg az text (some fs) = (Except.ok r, log)) :
    (∀ k o, (k, o) ∈ r.features → k ∈ fs ∧ k ∈ defaultFeatures) ∧
    (∀ junk, junk ∉ defaultFeatures →
      analyzeTextHandler cfg az text (some (fs ++ [junk])) =
        analyzeTextHandler cfg az text (some fs)) := by
  obtain ⟨hlog, hr⟩ := analyzeTextHandler_ok_inv h
  simp only [Option.getD_some] at hlog hr
  subst hr
  constructor
  · intro k o hko
    obtain ⟨a, ha, hae⟩ := List.mem_map.mp hko
    rw [Prod.mk.injEq] at hae
    obtain ⟨rfl, _⟩ := hae
    rcases mem_dispatchList.mp ha with
      ⟨rfl, hc⟩ | ⟨rfl, hc⟩ | ⟨rfl, hc⟩ | ⟨rfl, hc, _⟩ | ⟨rfl, hc⟩ <;>
      exact ⟨by simpa using hc, by decide⟩
  · intro junk hj
    unfold analyzeTextHandler
    simp only [Option.getD_some]
    rw [dispatchList_append_unknown hj]

theorem analyzeText_feature_keys_witness :
    ("sentiment" ∈ ["sentiment"] ∧ "sentiment" ∈ defaultFeatures) ∧
    analyzeTextHandler true azAllOk "hey" (some (["sentiment"] ++ ["bogus"])) =
      analyzeTextHandler true azAllOk "hey" (some ["sentiment"]) :=
  ⟨(analyzeText_feature_keys true azAllOk "hey" ["sentiment"]
      { text := "hey"
        wordCount := 1
        characterCount := 3
        features := [("sentiment", FeatureOutcome.success (FeatureData.doc ⟨"doc", []⟩))] }
      ["sentiment"] (by decide)).1 "sentiment"
      (FeatureOutcome.success (FeatureData.doc ⟨"doc", []⟩)) (by decide),
    (analyzeText_feature_keys true azAllOk "hey" ["sentiment"]
      { text := "hey"
        wordCount := 1
        characterCount := 3
        features := [("sentiment", FeatureOutcome.success (FeatureData.doc ⟨"doc", []⟩))] }
      ["sentiment"] (by decide)).2 "bogus" (by decide)⟩
